import Mathlib

/-!
Shallow embedding of the content-generation core of SparkByte_Cli
(packages/core/src/core/openaiCompatible.ts together with the
contentGenerator module): the canonical data model, the OpenAI-compatible
protocol adapter, the configuration resolver and the generator factory,
followed by theorems checking the natural-language specification.

Network I/O is modelled by passing an explicit fetch oracle of type
WireRequest to HttpResponse; the adapter functions also report the list of
wire requests they issue, so that retry behaviour is visible.
-/

namespace SparkByte

/-- A canonical content part. The source treats a part as either a raw string
or an object whose optional text field carries the text
(typeof p === "string" ? p : p.text ?? ""). -/
inductive Part where
  | str (s : String)
  | obj (text : Option String)
deriving DecidableEq

/-- One turn of a conversation; role and parts are both optional in the
upstream type. -/
structure Content where
  role : Option String
  parts : Option (List Part)
deriving DecidableEq

/-- The request config consumed by the adapter: temperature, topP and an
uninterpreted tools payload, each optional. -/
structure GenerateConfig where
  temperature : Option Float
  topP : Option Float
  tools : Option Unit

/-- Modelled from the spec: the request contents field as accepted by the
external normalization helper toContents, which takes either a single
Content or a sequence of Content (the converter module is not under src). -/
inductive ContentsUnion where
  | single (c : Content)
  | list (cs : List Content)

/-- Modelled from the spec: toContents, the canonical-content normalization
helper imported from the code-assist converter module (not under src); it
returns the normalized sequence of Content. -/
def toContents : ContentsUnion → List Content
  | .single c => [c]
  | .list cs => cs

/-- Canonical generate request. -/
structure GenerateContentParameters where
  model : String
  contents : ContentsUnion
  config : Option GenerateConfig

/-- Canonical usage metadata; absent wire fields stay none. -/
structure UsageMetadata where
  promptTokenCount : Option Nat
  candidatesTokenCount : Option Nat
  totalTokenCount : Option Nat
deriving DecidableEq

/-- One canonical candidate. -/
structure Candidate where
  content : Content
  index : Nat
deriving DecidableEq

/-- Canonical generate response. -/
structure GenerateContentResponse where
  modelVersion : String
  candidates : List Candidate
  usageMetadata : UsageMetadata
deriving DecidableEq

/-- Result of countTokens. -/
structure CountTokensResponse where
  totalTokens : Nat
deriving DecidableEq

/-- Result of embedContent; embedding entries are uninterpreted here. -/
structure EmbedContentResponse where
  embeddings : List Unit
deriving DecidableEq

/-- Outbound wire message: role and newline-joined text. -/
structure ChatMessage where
  role : String
  content : String
deriving DecidableEq

/-- Outbound wire request body for the chat completions endpoint. -/
structure WireBody where
  model : String
  messages : List ChatMessage
  temperature : Option Float
  top_p : Option Float
  tools : Option Unit
  stream : Bool

/-- One outbound HTTP request as issued by the adapter. -/
structure WireRequest where
  url : String
  method : String
  headers : List (String × String)
  body : WireBody

/-- Inbound wire choice message; content may be missing. -/
structure ChoiceMessage where
  content : Option String
deriving DecidableEq

/-- Inbound wire completion choice; message may be missing. -/
structure ChatChoice where
  message : Option ChoiceMessage
deriving DecidableEq

/-- Inbound wire usage object; every field may be missing. -/
structure WireUsage where
  prompt_tokens : Option Nat
  completion_tokens : Option Nat
  total_tokens : Option Nat
deriving DecidableEq

/-- Parsed JSON body of a chat completion response; choices and usage may be
missing. -/
structure ChatCompletionData where
  choices : Option (List ChatChoice)
  usage : Option WireUsage
deriving DecidableEq

/-- An HTTP response as seen by the adapter: status, raw body text, and the
parsed JSON used on the success path. -/
structure HttpResponse where
  status : Nat
  body : String
  json : ChatCompletionData

/-- resp.ok of the fetch API: status in the 200 to 299 range. -/
def HttpResponse.ok (r : HttpResponse) : Bool :=
  decide (200 ≤ r.status ∧ r.status ≤ 299)

/-- Options given to the adapter constructor. -/
structure OpenAICompatibleOptions where
  baseUrl : String
  apiKey : String
  model : String
  httpHeaders : Option (List (String × String))

/-- Adapter state after construction. -/
structure OpenAICompatibleContentGenerator where
  baseUrl : String
  apiKey : String
  defaultModel : String
  headers : List (String × String)

/-- The character-list form of the constructor regex replace, which removes a
single slash at the end of the string when present. -/
def stripSlashChars (l : List Char) : List Char :=
  if l.getLast? = some '/' then l.dropLast else l

/-- opts.baseUrl.replace of a trailing slash with the empty string. -/
def stripTrailingSlash (s : String) : String :=
  String.mk (stripSlashChars s.data)

/-- The constructor: normalizes baseUrl, stores the key and default model, and
builds the static headers with any extra httpHeaders appended. -/
def mkOpenAICompatible (opts : OpenAICompatibleOptions) : OpenAICompatibleContentGenerator :=
  { baseUrl := stripTrailingSlash opts.baseUrl
    apiKey := opts.apiKey
    defaultModel := opts.model
    headers := [("Content-Type", "application/json"),
                ("Authorization", "Bearer " ++ opts.apiKey)] ++ opts.httpHeaders.getD [] }

/-- Text extracted from one part: a raw string is taken as is, an object
yields its text field or the empty string. -/
def partText : Part → String
  | .str s => s
  | .obj t => t.getD ""

/-- partsToText: map each part to its text, drop the falsy (empty) strings,
and join the rest with newlines. -/
def partsToText (parts : List Part) : String :=
  String.intercalate "\n" ((parts.map partText).filter (fun s => s ≠ ""))

/-- One canonical Content becomes one wire message: role model maps to
assistant, every other role to user; the content is partsToText of the parts
(empty list when parts is missing). -/
def convertContentToMessage (c : Content) : ChatMessage :=
  { role := if c.role = some "model" then "assistant" else "user"
    content := partsToText (c.parts.getD []) }

/-- convertContentsToOpenAIMessages maps the conversion over the contents. -/
def convertContentsToOpenAIMessages (contents : List Content) : List ChatMessage :=
  contents.map convertContentToMessage

/-- convertTools: tool mapping is omitted, the result is always none. -/
def convertTools (_tools : Option Unit) : Option Unit :=
  none

/-- The text of the first choice message of the wire response, or the empty
string when any link of the chain is missing. -/
def choiceText (data : ChatCompletionData) : String :=
  ((((data.choices.bind List.head?).bind ChatChoice.message).bind ChoiceMessage.content).getD "")

/-- fromOpenAIChatCompletion: the first choice text becomes one candidate at
index 0 with a single text part when the text is nonempty and no parts when it
is empty; usage fields are copied per-field, staying none when missing. -/
def fromOpenAIChatCompletion (data : ChatCompletionData) (model : String) :
    GenerateContentResponse :=
  let text := choiceText data
  { modelVersion := model
    candidates := [{ content := { role := some "model"
                                  parts := some (if text = "" then [] else [Part.obj (some text)]) }
                     index := 0 }]
    usageMetadata := { promptTokenCount := data.usage.bind WireUsage.prompt_tokens
                       candidatesTokenCount := data.usage.bind WireUsage.completion_tokens
                       totalTokenCount := data.usage.bind WireUsage.total_tokens } }

/-- The model used for one request: the request model, or the adapter default
when the request model is the falsy empty string. -/
def requestedModel (g : OpenAICompatibleContentGenerator)
    (req : GenerateContentParameters) : String :=
  if req.model = "" then g.defaultModel else req.model

/-- The wire body built by generateContent. -/
def wireBodyOf (g : OpenAICompatibleContentGenerator)
    (req : GenerateContentParameters) : WireBody :=
  { model := requestedModel g req
    messages := convertContentsToOpenAIMessages (toContents req.contents)
    temperature := req.config.bind GenerateConfig.temperature
    top_p := req.config.bind GenerateConfig.topP
    tools := convertTools (req.config.bind GenerateConfig.tools)
    stream := false }

/-- The single wire request issued by generateContent: POST to the chat
completions path under the normalized base URL, with the static headers. -/
def wireRequestOf (g : OpenAICompatibleContentGenerator)
    (req : GenerateContentParameters) : WireRequest :=
  { url := g.baseUrl ++ "/chat/completions"
    method := "POST"
    headers := g.headers
    body := wireBodyOf g req }

/-- generateContent together with the trace of wire requests it issues: one
fetch; a non-ok status throws the error built from status and body text, an ok
status translates the JSON. -/
def generateContentRun (g : OpenAICompatibleContentGenerator)
    (fetch : WireRequest → HttpResponse) (req : GenerateContentParameters) :
    Except String GenerateContentResponse × List WireRequest :=
  let wreq := wireRequestOf g req
  let resp := fetch wreq
  if resp.ok then
    (Except.ok (fromOpenAIChatCompletion resp.json (requestedModel g req)), [wreq])
  else
    (Except.error ("OpenAI-compatible error " ++ toString resp.status ++ ": " ++ resp.body),
     [wreq])

/-- generateContent: the result component of the run. -/
def generateContent (g : OpenAICompatibleContentGenerator)
    (fetch : WireRequest → HttpResponse) (req : GenerateContentParameters) :
    Except String GenerateContentResponse :=
  (generateContentRun g fetch req).1

/-- generateContentStream: the async generator yields the one awaited
generateContent result and completes; an error propagates. The sequence of
yielded elements is modelled as a list. -/
def generateContentStream (g : OpenAICompatibleContentGenerator)
    (fetch : WireRequest → HttpResponse) (req : GenerateContentParameters) :
    Except String (List GenerateContentResponse) :=
  (generateContent g fetch req).map (fun r => [r])

/-- countTokens always reports an unknown count of zero. -/
def countTokens (_req : Unit) : CountTokensResponse :=
  { totalTokens := 0 }

/-- embedContent always reports an empty embedding list. -/
def embedContent (_req : Unit) : EmbedContentResponse :=
  { embeddings := [] }

/-- The AuthType enum of the contentGenerator module. -/
inductive AuthType where
  | loginWithGoogle
  | useGemini
  | useVertexAI
  | cloudShell
  | useOpenai
  | useOpenrouter
  | useDeepseek
  | useGlm
deriving DecidableEq

/-- The string value of each AuthType enum member. -/
def AuthType.value : AuthType → String
  | .loginWithGoogle => "oauth-personal"
  | .useGemini => "gemini-api-key"
  | .useVertexAI => "vertex-ai"
  | .cloudShell => "cloud-shell"
  | .useOpenai => "openai"
  | .useOpenrouter => "openrouter"
  | .useDeepseek => "deepseek"
  | .useGlm => "glm"

/-- The provider discriminant of ContentGeneratorConfig. -/
inductive Provider where
  | openai
  | openrouter
  | deepseek
  | glm
deriving DecidableEq

/-- The process environment variables read by the resolver; a missing variable
is none. -/
structure Env where
  GEMINI_API_KEY : Option String
  GOOGLE_API_KEY : Option String
  GOOGLE_CLOUD_PROJECT : Option String
  GOOGLE_CLOUD_LOCATION : Option String
  OPENAI_API_KEY : Option String
  OPENROUTER_API_KEY : Option String
  DEEPSEEK_API_KEY : Option String
  GLM_API_KEY : Option String
  ZHIPUAI_API_KEY : Option String
  OPENAI_BASE_URL : Option String
  OPENROUTER_BASE_URL : Option String
  DEEPSEEK_BASE_URL : Option String
  GLM_BASE_URL : Option String
deriving DecidableEq

/-- A JS read of the form process.env.X or undefined: an empty string is
falsy and collapses to none. -/
def envOpt : Option String → Option String
  | some s => if s = "" then none else some s
  | none => none

/-- A JS read of the form process.env.X or a default literal: missing or
empty falls back to the default. -/
def envDefault (v : Option String) (d : String) : String :=
  match v with
  | some s => if s = "" then d else s
  | none => d

/-- The slice of the session Config object the resolver consumes: getModel and
getProxy. -/
structure Config where
  model : String
  proxy : Option String
deriving DecidableEq

/-- The resolved backend configuration. -/
structure ContentGeneratorConfig where
  model : String
  apiKey : Option String
  vertexai : Option Bool
  authType : Option AuthType
  proxy : Option String
  baseUrl : Option String
  provider : Option Provider
deriving DecidableEq

/-- Modelled from the spec: DEFAULT_GEMINI_MODEL is imported from the config
models module, which is not under src; the concrete value is immaterial to
every claim proved here. -/
def DEFAULT_GEMINI_MODEL : String := "gemini-2.5-pro"

/-- The effective model: config.getModel() when truthy, else the default. -/
def effectiveModelOf (config : Config) : String :=
  if config.model = "" then DEFAULT_GEMINI_MODEL else config.model

/-- createContentGeneratorConfig: the resolver. Reads the environment once,
then walks the authType branches in source order; a branch is entered only
when its selector matches and its required keys are truthy, otherwise
resolution falls through to the base configuration. -/
def createContentGeneratorConfig (config : Config) (authType : Option AuthType)
    (env : Env) : ContentGeneratorConfig :=
  let geminiApiKey := envOpt env.GEMINI_API_KEY
  let googleApiKey := envOpt env.GOOGLE_API_KEY
  let googleCloudProject := envOpt env.GOOGLE_CLOUD_PROJECT
  let googleCloudLocation := envOpt env.GOOGLE_CLOUD_LOCATION
  let openaiApiKey := envOpt env.OPENAI_API_KEY
  let openrouterApiKey := envOpt env.OPENROUTER_API_KEY
  let deepseekApiKey := envOpt env.DEEPSEEK_API_KEY
  let glmApiKey := (envOpt env.GLM_API_KEY).orElse (fun _ => envOpt env.ZHIPUAI_API_KEY)
  let openaiBaseUrl := envDefault env.OPENAI_BASE_URL "https://api.openai.com/v1"
  let openrouterBaseUrl := envDefault env.OPENROUTER_BASE_URL "https://openrouter.ai/api/v1"
  let deepseekBaseUrl := envDefault env.DEEPSEEK_BASE_URL "https://api.deepseek.com"
  let glmBaseUrl := envDefault env.GLM_BASE_URL "https://open.bigmodel.cn/api/paas/v4"
  let base : ContentGeneratorConfig :=
    { model := effectiveModelOf config
      apiKey := none
      vertexai := none
      authType := authType
      proxy := config.proxy
      baseUrl := none
      provider := none }
  if authType = some AuthType.loginWithGoogle ∨ authType = some AuthType.cloudShell then
    base
  else if authType = some AuthType.useGemini ∧ geminiApiKey.isSome then
    { base with apiKey := geminiApiKey, vertexai := some false }
  else if authType = some AuthType.useVertexAI ∧
      (googleApiKey.isSome ∨ (googleCloudProject.isSome ∧ googleCloudLocation.isSome)) then
    { base with apiKey := googleApiKey, vertexai := some true }
  else if authType = some AuthType.useOpenai ∧ openaiApiKey.isSome then
    { base with apiKey := openaiApiKey, baseUrl := some openaiBaseUrl,
                provider := some Provider.openai }
  else if authType = some AuthType.useOpenrouter ∧ openrouterApiKey.isSome then
    { base with apiKey := openrouterApiKey, baseUrl := some openrouterBaseUrl,
                provider := some Provider.openrouter }
  else if authType = some AuthType.useDeepseek ∧ deepseekApiKey.isSome then
    { base with apiKey := deepseekApiKey, baseUrl := some deepseekBaseUrl,
                provider := some Provider.deepseek }
  else if authType = some AuthType.useGlm ∧ glmApiKey.isSome then
    { base with apiKey := glmApiKey, baseUrl := some glmBaseUrl,
                provider := some Provider.glm }
  else
    base

/-- The ambient process data the factory reads for its User-Agent header. -/
structure ProcessInfo where
  CLI_VERSION : Option String
  nodeVersion : String
  platform : String
  arch : String

/-- The backend instance constructed by one factory branch. The code-assist
and GoogleGenAI constructors are external collaborators, so only the data
handed to them is recorded. The openaiCompatible branch records the raw
config fields: the source applies TypeScript non-null assertions to baseUrl
and apiKey, which erase only types, not values. -/
inductive Backend where
  | codeAssist (authType : Option AuthType) (httpHeaders : List (String × String))
  | googleGenAI (apiKey : Option String) (vertexai : Option Bool)
      (httpHeaders : List (String × String))
  | openaiCompatible (baseUrl : Option String) (apiKey : Option String)
      (model : String) (httpHeaders : List (String × String))

/-- A constructed generator: every factory branch wraps its backend in the
LoggingContentGenerator decorator. -/
inductive ConstructedGenerator where
  | logging (inner : Backend)

/-- The template-literal rendering of config.authType in the error message:
undefined when absent, else the enum string value. -/
def authTypeDisplay : Option AuthType → String
  | none => "undefined"
  | some a => a.value

/-- createContentGenerator: the factory. Dispatches on authType; every
successful branch returns its backend wrapped in the logging decorator, and
any other authType throws the unsupported-authType error. -/
def createContentGenerator (config : ContentGeneratorConfig) (pinfo : ProcessInfo) :
    Except String ConstructedGenerator :=
  let version := envDefault pinfo.CLI_VERSION pinfo.nodeVersion
  let httpHeaders : List (String × String) :=
    [("User-Agent",
      "GeminiCLI/" ++ version ++ " (" ++ pinfo.platform ++ "; " ++ pinfo.arch ++ ")")]
  if config.authType = some AuthType.loginWithGoogle ∨
      config.authType = some AuthType.cloudShell then
    Except.ok (ConstructedGenerator.logging (Backend.codeAssist config.authType httpHeaders))
  else if config.authType = some AuthType.useGemini ∨
      config.authType = some AuthType.useVertexAI then
    Except.ok (ConstructedGenerator.logging (Backend.googleGenAI
      (match config.apiKey with | some "" => none | k => k) config.vertexai httpHeaders))
  else if config.authType = some AuthType.useOpenai ∨
      config.authType = some AuthType.useOpenrouter ∨
      config.authType = some AuthType.useDeepseek ∨
      config.authType = some AuthType.useGlm then
    Except.ok (ConstructedGenerator.logging (Backend.openaiCompatible
      config.baseUrl config.apiKey config.model httpHeaders))
  else
    Except.error ("Error creating contentGenerator: Unsupported authType: " ++
      authTypeDisplay config.authType)

/-- A substring containment statement used by the error-message claims. -/
def containsSub (s t : String) : Prop :=
  ∃ a b : String, s = a ++ t ++ b

/-- The environment with every variable unset. -/
def emptyEnv : Env :=
  { GEMINI_API_KEY := none
    GOOGLE_API_KEY := none
    GOOGLE_CLOUD_PROJECT := none
    GOOGLE_CLOUD_LOCATION := none
    OPENAI_API_KEY := none
    OPENROUTER_API_KEY := none
    DEEPSEEK_API_KEY := none
    GLM_API_KEY := none
    ZHIPUAI_API_KEY := none
    OPENAI_BASE_URL := none
    OPENROUTER_BASE_URL := none
    DEEPSEEK_BASE_URL := none
    GLM_BASE_URL := none }

/-- The thirteen environments that set exactly one of the variables the
resolver reads, each to a nonempty string. -/
def singleVarEnvs : List Env :=
  [{ emptyEnv with GEMINI_API_KEY := some "k" },
   { emptyEnv with GOOGLE_API_KEY := some "k" },
   { emptyEnv with GOOGLE_CLOUD_PROJECT := some "k" },
   { emptyEnv with GOOGLE_CLOUD_LOCATION := some "k" },
   { emptyEnv with OPENAI_API_KEY := some "k" },
   { emptyEnv with OPENROUTER_API_KEY := some "k" },
   { emptyEnv with DEEPSEEK_API_KEY := some "k" },
   { emptyEnv with GLM_API_KEY := some "k" },
   { emptyEnv with ZHIPUAI_API_KEY := some "k" },
   { emptyEnv with OPENAI_BASE_URL := some "k" },
   { emptyEnv with OPENROUTER_BASE_URL := some "k" },
   { emptyEnv with DEEPSEEK_BASE_URL := some "k" },
   { emptyEnv with GLM_BASE_URL := some "k" }]

/-- A fixed session config for the environment-variable counting argument. -/
def cfg0 : Config := { model := "m", proxy := none }

/-- Whether resolving with selector a under environment e selects provider
p. -/
def selectedWith (a : AuthType) (p : Provider) (e : Env) : Bool :=
  decide ((createContentGeneratorConfig cfg0 (some a) e).provider = some p)

/-- How many of the thirteen single-variable environments make selector a
select provider p. -/
def enablingVarCount (a : AuthType) (p : Provider) : Nat :=
  (singleVarEnvs.filter (selectedWith a p)).length

/-- A concrete adapter instance for evaluating theorems at a point. -/
def gW : OpenAICompatibleContentGenerator :=
  mkOpenAICompatible
    { baseUrl := "https://api.test", apiKey := "key", model := "m", httpHeaders := none }

/-- A concrete successful fetch oracle. -/
def fetchOkW : WireRequest → HttpResponse := fun _ =>
  { status := 200
    body := ""
    json := { choices := some [{ message := some { content := some "hi" } }], usage := none } }

/-- A concrete failing fetch oracle: status 401, body invalid key. -/
def fetchErrW : WireRequest → HttpResponse := fun _ =>
  { status := 401, body := "invalid key", json := { choices := none, usage := none } }

/-- A concrete request whose model field is the empty string. -/
def reqW : GenerateContentParameters :=
  { model := "", contents := ContentsUnion.list [], config := none }

/-- The canonical response the successful oracle produces for reqW on gW. -/
def respW : GenerateContentResponse :=
  { modelVersion := "m"
    candidates := [{ content := { role := some "model", parts := some [Part.obj (some "hi")] }
                     index := 0 }]
    usageMetadata := { promptTokenCount := none, candidatesTokenCount := none,
                       totalTokenCount := none } }

/-- C1: on any request on which generateContent succeeds, generateContentStream
yields exactly one element, that element is the generateContent result for the
same request, and the sequence then completes with no partial emission. -/
theorem stream_yields_single_generateContent_result
    (g : OpenAICompatibleContentGenerator) (fetch : WireRequest → HttpResponse)
    (req : GenerateContentParameters) (r : GenerateContentResponse)
    (h : generateContent g fetch req = Except.ok r) :
    generateContentStream g fetch req = Except.ok [r] ∧ [r].length = 1 := by
  refine ⟨?_, rfl⟩
  simp [generateContentStream, h, Except.map]

/-- Witness for C1 at a concrete adapter, oracle and request. -/
theorem stream_yields_single_generateContent_result_witness :
    generateContentStream gW fetchOkW reqW = Except.ok [respW] ∧ [respW].length = 1 :=
  stream_yields_single_generateContent_result gW fetchOkW reqW respW (by rfl)

/-- C2: translating a canonical Content to a wire message maps role model to
wire role assistant and every other role value, recognized or not, to wire
role user; the translation of a list applies this to each Content. -/
theorem role_model_maps_to_assistant_else_user (c : Content) :
    (c.role = some "model" → (convertContentToMessage c).role = "assistant") ∧
    (c.role ≠ some "model" → (convertContentToMessage c).role = "user") ∧
    convertContentsToOpenAIMessages [c] = [convertContentToMessage c] := by
  refine ⟨fun h => ?_, fun h => ?_, rfl⟩
  · simp [convertContentToMessage, h]
  · simp [convertContentToMessage, h]

/-- Witness for C2 at an unrecognized role. -/
theorem role_model_maps_to_assistant_else_user_witness :
    (convertContentToMessage { role := some "tool", parts := none }).role = "user" :=
  (role_model_maps_to_assistant_else_user { role := some "tool", parts := none }).2.1
    (by decide)

/-- C3: the wire message content is the newline join of the texts of the
text-bearing parts in order; a part with empty or no extractable text
contributes nothing, not even an empty line, and the parts a, empty, b
produce the content a newline b. -/
theorem empty_text_parts_contribute_nothing (l1 l2 : List Part) (p : Part)
    (hp : partText p = "") :
    partsToText (l1 ++ p :: l2) = partsToText (l1 ++ l2) ∧
    partsToText [Part.obj (some "a"), Part.obj (some ""), Part.obj (some "b")] = "a\nb" := by
  refine ⟨?_, rfl⟩
  simp [partsToText, hp]

/-- Witness for C3 at the concrete parts a, empty, b. -/
theorem empty_text_parts_contribute_nothing_witness :
    partsToText ([Part.obj (some "a")] ++ Part.obj (some "") :: [Part.obj (some "b")]) =
      partsToText ([Part.obj (some "a")] ++ [Part.obj (some "b")]) ∧
    partsToText [Part.obj (some "a"), Part.obj (some ""), Part.obj (some "b")] = "a\nb" :=
  empty_text_parts_contribute_nothing [Part.obj (some "a")] [Part.obj (some "b")]
    (Part.obj (some "")) (by rfl)

/-- C4: a wire response with a non-success HTTP status makes generateContent
fail with an error whose message contains both the numeric status code and the
raw response body text, and exactly one wire request is issued, so no retry is
performed. -/
theorem non_success_status_fails_with_status_and_body
    (g : OpenAICompatibleContentGenerator) (fetch : WireRequest → HttpResponse)
    (req : GenerateContentParameters)
    (h : (fetch (wireRequestOf g req)).ok = false) :
    generateContent g fetch req = Except.error
      ("OpenAI-compatible error " ++ toString (fetch (wireRequestOf g req)).status ++
        ": " ++ (fetch (wireRequestOf g req)).body) ∧
    containsSub
      ("OpenAI-compatible error " ++ toString (fetch (wireRequestOf g req)).status ++
        ": " ++ (fetch (wireRequestOf g req)).body)
      (toString (fetch (wireRequestOf g req)).status) ∧
    containsSub
      ("OpenAI-compatible error " ++ toString (fetch (wireRequestOf g req)).status ++
        ": " ++ (fetch (wireRequestOf g req)).body)
      ((fetch (wireRequestOf g req)).body) ∧
    (generateContentRun g fetch req).2.length = 1 := by
  refine ⟨?_, ?_, ?_, ?_⟩
  · simp [generateContent, generateContentRun, h]
  · exact ⟨"OpenAI-compatible error ",
      ": " ++ (fetch (wireRequestOf g req)).body, by simp [String.append_assoc]⟩
  · exact ⟨"OpenAI-compatible error " ++ toString (fetch (wireRequestOf g req)).status ++ ": ",
      "", by simp [String.append_empty]⟩
  · simp [generateContentRun, h]

/-- Witness for C4 at a concrete 401 response with body invalid key. -/
theorem non_success_status_fails_witness :
    generateContent gW fetchErrW reqW = Except.error
      ("OpenAI-compatible error " ++ toString (fetchErrW (wireRequestOf gW reqW)).status ++
        ": " ++ (fetchErrW (wireRequestOf gW reqW)).body) ∧
    containsSub
      ("OpenAI-compatible error " ++ toString (fetchErrW (wireRequestOf gW reqW)).status ++
        ": " ++ (fetchErrW (wireRequestOf gW reqW)).body)
      (toString (fetchErrW (wireRequestOf gW reqW)).status) ∧
    containsSub
      ("OpenAI-compatible error " ++ toString (fetchErrW (wireRequestOf gW reqW)).status ++
        ": " ++ (fetchErrW (wireRequestOf gW reqW)).body)
      ((fetchErrW (wireRequestOf gW reqW)).body) ∧
    (generateContentRun gW fetchErrW reqW).2.length = 1 :=
  non_success_status_fails_with_status_and_body gW fetchErrW reqW (by rfl)

/-- C5: a wire body with no choices field, or whose extracted first choice text
is empty, still translates without failing: the candidate list has length one,
its single candidate sits at index 0 with an empty parts sequence, and each
usage field absent from the wire response maps to none, never to zero. -/
theorem missing_choices_degrade_gracefully
    (data : ChatCompletionData) (model : String)
    (h : data.choices = none ∨ choiceText data = "") :
    (fromOpenAIChatCompletion data model).candidates =
      [{ content := { role := some "model", parts := some [] }, index := 0 }] ∧
    (fromOpenAIChatCompletion data model).usageMetadata.promptTokenCount =
      data.usage.bind WireUsage.prompt_tokens ∧
    (fromOpenAIChatCompletion data model).usageMetadata.candidatesTokenCount =
      data.usage.bind WireUsage.completion_tokens ∧
    (fromOpenAIChatCompletion data model).usageMetadata.totalTokenCount =
      data.usage.bind WireUsage.total_tokens ∧
    (data.usage = none →
      (fromOpenAIChatCompletion data model).usageMetadata =
        { promptTokenCount := none, candidatesTokenCount := none,
          totalTokenCount := none }) := by
  have htext : choiceText data = "" := by
    rcases h with h | h
    · simp [choiceText, h]
    · exact h
  refine ⟨?_, rfl, rfl, rfl, fun hu => ?_⟩
  · simp [fromOpenAIChatCompletion, htext]
  · simp [fromOpenAIChatCompletion, hu]

/-- Witness for C5 at the wire body with neither choices nor usage. -/
theorem missing_choices_degrade_gracefully_witness :
    (fromOpenAIChatCompletion { choices := none, usage := none } "m").candidates =
      [{ content := { role := some "model", parts := some [] }, index := 0 }] ∧
    (fromOpenAIChatCompletion { choices := none, usage := none } "m").usageMetadata.promptTokenCount =
      ({ choices := none, usage := none } : ChatCompletionData).usage.bind WireUsage.prompt_tokens ∧
    (fromOpenAIChatCompletion { choices := none, usage := none } "m").usageMetadata.candidatesTokenCount =
      ({ choices := none, usage := none } : ChatCompletionData).usage.bind WireUsage.completion_tokens ∧
    (fromOpenAIChatCompletion { choices := none, usage := none } "m").usageMetadata.totalTokenCount =
      ({ choices := none, usage := none } : ChatCompletionData).usage.bind WireUsage.total_tokens ∧
    (({ choices := none, usage := none } : ChatCompletionData).usage = none →
      (fromOpenAIChatCompletion { choices := none, usage := none } "m").usageMetadata =
        { promptTokenCount := none, candidatesTokenCount := none,
          totalTokenCount := none }) :=
  missing_choices_degrade_gracefully { choices := none, usage := none } "m" (Or.inl rfl)

/-- C9: a request whose model field is the empty string uses the configured
default model: the wire request body model field and, on success, the
canonical response modelVersion both equal the adapter default model. -/
theorem empty_model_uses_default_model
    (g : OpenAICompatibleContentGenerator) (fetch : WireRequest → HttpResponse)
    (req : GenerateContentParameters) (r : GenerateContentResponse)
    (hm : req.model = "") (hr : generateContent g fetch req = Except.ok r) :
    (wireRequestOf g req).body.model = g.defaultModel ∧
    r.modelVersion = g.defaultModel := by
  have hreq : requestedModel g req = g.defaultModel := by simp [requestedModel, hm]
  refine ⟨by simp [wireRequestOf, wireBodyOf, hreq], ?_⟩
  by_cases hok : (fetch (wireRequestOf g req)).ok = true
  · simp [generateContent, generateContentRun, hok] at hr
    rw [← hr]
    simp [fromOpenAIChatCompletion, hreq]
  · simp [generateContent, generateContentRun, hok] at hr

/-- Witness for C9 at a concrete empty-model request. -/
theorem empty_model_uses_default_model_witness :
    (wireRequestOf gW reqW).body.model = gW.defaultModel ∧
    respW.modelVersion = gW.defaultModel :=
  empty_model_uses_default_model gW fetchOkW reqW respW (by rfl) (by rfl)

/-- C6: with an OpenAI-wire-compatible selector whose matching API key
variables are unset (or empty, which is falsy), the resolver returns the
generic default configuration carrying the model, the authType and the proxy,
with no provider, no baseUrl and no apiKey; it neither fails nor returns a
partially filled provider configuration. -/
theorem missing_key_falls_through_to_default
    (config : Config) (env : Env) (a : AuthType)
    (ha : a = AuthType.useOpenai ∨ a = AuthType.useOpenrouter ∨
      a = AuthType.useDeepseek ∨ a = AuthType.useGlm)
    (h1 : a = AuthType.useOpenai → envOpt env.OPENAI_API_KEY = none)
    (h2 : a = AuthType.useOpenrouter → envOpt env.OPENROUTER_API_KEY = none)
    (h3 : a = AuthType.useDeepseek → envOpt env.DEEPSEEK_API_KEY = none)
    (h4 : a = AuthType.useGlm →
      envOpt env.GLM_API_KEY = none ∧ envOpt env.ZHIPUAI_API_KEY = none) :
    createContentGeneratorConfig config (some a) env =
      { model := effectiveModelOf config, apiKey := none, vertexai := none,
        authType := some a, proxy := config.proxy, baseUrl := none,
        provider := none } := by
  rcases ha with h | h | h | h <;> subst h <;>
    simp_all [createContentGeneratorConfig, Option.orElse]

/-- Witness for C6 at the empty environment and the openai selector. -/
theorem missing_key_falls_through_witness :
    createContentGeneratorConfig cfg0 (some AuthType.useOpenai) emptyEnv =
      { model := effectiveModelOf cfg0, apiKey := none, vertexai := none,
        authType := some AuthType.useOpenai, proxy := cfg0.proxy, baseUrl := none,
        provider := none } :=
  missing_key_falls_through_to_default cfg0 emptyEnv AuthType.useOpenai (Or.inl rfl)
    (by decide) (by decide) (by decide) (by decide)

/-- C7: factory dispatch is total over the known authType values: every known
selector constructs exactly one backend and returns it wrapped in the logging
decorator, on every branch; any other authType value throws the
unsupported-authType configuration error instead of defaulting. -/
theorem factory_dispatch_total_and_always_wrapped
    (config : ContentGeneratorConfig) (pinfo : ProcessInfo) :
    (∀ a, config.authType = some a →
      ∃ b, createContentGenerator config pinfo =
        Except.ok (ConstructedGenerator.logging b)) ∧
    (config.authType = none →
      createContentGenerator config pinfo = Except.error
        ("Error creating contentGenerator: Unsupported authType: " ++
          authTypeDisplay config.authType)) := by
  constructor
  · intro a ha
    cases a <;> simp [createContentGenerator, ha]
  · intro h
    simp [createContentGenerator, h]

/-- A fixed resolved configuration for evaluating the factory at a point. -/
def cfgGeminiW : ContentGeneratorConfig :=
  { model := "m", apiKey := some "k", vertexai := some false,
    authType := some AuthType.useGemini, proxy := none, baseUrl := none,
    provider := none }

/-- Fixed process data for evaluating the factory at a point. -/
def pinfoW : ProcessInfo :=
  { CLI_VERSION := none, nodeVersion := "v20.0.0", platform := "linux", arch := "x64" }

/-- Witness for C7 at a concrete configuration with a known selector. -/
theorem factory_dispatch_witness :
    ∃ b, createContentGenerator cfgGeminiW pinfoW =
      Except.ok (ConstructedGenerator.logging b) :=
  (factory_dispatch_total_and_always_wrapped cfgGeminiW pinfoW).1 AuthType.useGemini rfl

/-- C8 as stated is false on the code: the resolver reads thirteen environment
variables, and among the thirteen environments that set exactly one of them,
exactly one environment makes the openai selector selectable (the one setting
OPENAI_API_KEY), so the openai credential lookup accepts a single variable
name and has no alias; the openrouter and deepseek lookups behave the same. -/
theorem openai_accepts_single_key_name_counterexample :
    enablingVarCount AuthType.useOpenai Provider.openai = 1 ∧
    enablingVarCount AuthType.useOpenrouter Provider.openrouter = 1 ∧
    enablingVarCount AuthType.useDeepseek Provider.deepseek = 1 := by
  decide

/-- C8 amended: only the glm credential lookup accepts two distinct
environment variable names, GLM_API_KEY and ZHIPUAI_API_KEY, either of which
makes the selector selectable; the openai, openrouter and deepseek lookups
each depend on exactly one variable name. -/
theorem glm_is_only_provider_with_key_alias (config : Config) (env : Env) :
    ((createContentGeneratorConfig config (some AuthType.useOpenai) env).provider =
        some Provider.openai ↔ (envOpt env.OPENAI_API_KEY).isSome = true) ∧
    ((createContentGeneratorConfig config (some AuthType.useOpenrouter) env).provider =
        some Provider.openrouter ↔ (envOpt env.OPENROUTER_API_KEY).isSome = true) ∧
    ((createContentGeneratorConfig config (some AuthType.useDeepseek) env).provider =
        some Provider.deepseek ↔ (envOpt env.DEEPSEEK_API_KEY).isSome = true) ∧
    ((createContentGeneratorConfig config (some AuthType.useGlm) env).provider =
        some Provider.glm ↔
      ((envOpt env.GLM_API_KEY).isSome = true ∨
        (envOpt env.ZHIPUAI_API_KEY).isSome = true)) ∧
    enablingVarCount AuthType.useGlm Provider.glm = 2 := by
  refine ⟨?_, ?_, ?_, ?_, by decide⟩
  · by_cases hk : (envOpt env.OPENAI_API_KEY).isSome = true <;>
      simp [createContentGeneratorConfig, hk]
  · by_cases hk : (envOpt env.OPENROUTER_API_KEY).isSome = true <;>
      simp [createContentGeneratorConfig, hk]
  · by_cases hk : (envOpt env.DEEPSEEK_API_KEY).isSome = true <;>
      simp [createContentGeneratorConfig, hk]
  · rcases hg : envOpt env.GLM_API_KEY with _ | s <;>
      rcases hz : envOpt env.ZHIPUAI_API_KEY with _ | t <;>
      simp [createContentGeneratorConfig, hg, hz, Option.orElse]

/-- Rebuilding a string from its character data gives the string back. -/
theorem string_mk_data (s : String) : String.mk s.data = s := by
  cases s
  rfl

/-- C10: the constructor strips one trailing slash from the configured base
URL, so for a base URL not ending in a slash, constructing with it and
constructing with it plus a trailing slash produce adapters that issue every
request to the identical chat completions endpoint. -/
theorem trailing_slash_is_normalized
    (u k m : String) (hdrs : Option (List (String × String)))
    (req : GenerateContentParameters)
    (h : u.data.getLast? ≠ some '/') :
    (wireRequestOf (mkOpenAICompatible
        { baseUrl := u, apiKey := k, model := m, httpHeaders := hdrs }) req).url =
      u ++ "/chat/completions" ∧
    (wireRequestOf (mkOpenAICompatible
        { baseUrl := u ++ "/", apiKey := k, model := m, httpHeaders := hdrs }) req).url =
      u ++ "/chat/completions" := by
  have hone : stripTrailingSlash u = u := by
    simp [stripTrailingSlash, stripSlashChars, h, string_mk_data]
  have hdata : (u ++ "/").data = u.data ++ ['/'] := by
    rw [String.data_append]
  have htwo : stripTrailingSlash (u ++ "/") = u := by
    simp [stripTrailingSlash, stripSlashChars, hdata, List.getLast?_concat,
      List.dropLast_concat, string_mk_data]
  constructor <;> simp [wireRequestOf, mkOpenAICompatible, hone, htwo]

/-- Witness for C10 at a concrete base URL. -/
theorem trailing_slash_is_normalized_witness :
    (wireRequestOf (mkOpenAICompatible
        { baseUrl := "https://api.deepseek.com", apiKey := "k", model := "m",
          httpHeaders := none }) reqW).url =
      "https://api.deepseek.com" ++ "/chat/completions" ∧
    (wireRequestOf (mkOpenAICompatible
        { baseUrl := "https://api.deepseek.com" ++ "/", apiKey := "k", model := "m",
          httpHeaders := none }) reqW).url =
      "https://api.deepseek.com" ++ "/chat/completions" :=
  trailing_slash_is_normalized "https://api.deepseek.com" "k" "m" none reqW (by decide)

end SparkByte
